import Mathlib

/-!
Verification development for the Live-Dashboard dynamic CSV analysis
pipeline.  The repository ships the frontend (React/TypeScript) and the
design documentation of the backend pipeline; the backend pipeline itself
(profiler, schema interpreter, plan designer, plan executor, recommendation
generator, orchestrator) is specified in spec.md sections 2-7 and in the
repository docs, and is modelled here from that specification.  The two
frontend components under verification (the KPI value formatter of
LinkedInTab.tsx and the WordCloud font sizing of the word-cloud component)
are translated directly from their TypeScript source.

Numeric scalars are modelled as rationals; tabular rows are association
lists from column names to scalar values.
-/

/-- Modelled from the spec: a scalar cell value of a Dataset — a number, a
text/temporal value, or a null (coercion failure / missing value), spec
section 3 "Dataset". -/
inductive Value where
  | num (q : ℚ)
  | str (s : String)
  | null
deriving DecidableEq, Repr

/-- Modelled from the spec: a row is a mapping from column name to a scalar
value (spec section 3 "Dataset"). -/
def Row : Type := List (String × Value)

instance : DecidableEq Row := inferInstanceAs (DecidableEq (List (String × Value)))

/-- Value of column c in row r; a column absent from the row reads as null. -/
def getVal (r : Row) (c : String) : Value :=
  match r.find? (fun p => p.1 == c) with
  | some p => p.2
  | none => Value.null

/-- Modelled from the spec: an in-memory ordered collection of rows together
with the ordered header (spec section 3 "Dataset"). -/
structure Dataset where
  columns : List String
  rows : List Row
deriving DecidableEq

/-- Modelled from the spec: the calculation / aggregation enum of KPISpec and
ChartSpec (spec section 3). -/
inductive Calc where
  | sum
  | average
  | count
  | min
  | max
deriving DecidableEq, Repr

/-- Modelled from the spec: the KPI display format enum (spec section 3). -/
inductive KPIFormat where
  | number
  | percentage
  | currency
  | duration
deriving DecidableEq, Repr

/-- Modelled from the spec: a KPI specification of a Dashboard Plan (spec
section 3 "KPISpec"). -/
structure KPISpec where
  name : String
  description : String
  calculation : Calc
  columns_needed : List String
  format : KPIFormat
deriving DecidableEq, Repr

/-- Modelled from the spec: the chart type enum (spec section 3). -/
inductive ChartType where
  | line
  | bar
  | pie
  | area
  | scatter
deriving DecidableEq, Repr

/-- Modelled from the spec: a chart specification of a Dashboard Plan (spec
section 3 "ChartSpec"). -/
structure ChartSpec where
  title : String
  chart_type : ChartType
  description : String
  x_axis : Option String
  y_axis : String
  grouping : Option String
  aggregation : Calc
deriving DecidableEq, Repr

/-- Modelled from the spec: a Dashboard Plan — ordered KPI and chart
specifications, treated as untrusted input by the executor (spec section 3). -/
structure DashboardPlan where
  kpis : List KPISpec
  charts : List ChartSpec
deriving DecidableEq, Repr

/-- Numeric reading of a cell: only genuinely numeric cells coerce; text and
null are excluded from aggregates (spec section 4.5: non-numeric values are
excluded from the aggregate, not treated as zero). -/
def toNum : Value → Option ℚ
  | Value.num q => some q
  | _ => none

/-- Sum of a list of rationals (the model of a pandas column sum). -/
def ratSum : List ℚ → ℚ
  | [] => 0
  | [x] => x
  | x :: xs => x + ratSum xs

/-- Modelled from the spec: aggregate a list of numeric values; empty inputs
degrade to an unavailable result for average/min/max (spec section 4.5,
calculation-error degradation). -/
def aggNums : Calc → List ℚ → Option ℚ
  | Calc.sum, l => some (ratSum l)
  | Calc.average, [] => none
  | Calc.average, l => some (ratSum l / (l.length : ℚ))
  | Calc.count, l => some ((l.length : ℚ))
  | Calc.min, [] => none
  | Calc.min, x :: xs => some (xs.foldl (fun a b => if a ≤ b then a else b) x)
  | Calc.max, [] => none
  | Calc.max, x :: xs => some (xs.foldl (fun a b => if a ≤ b then b else a) x)

/-- The numeric-coercible values of column c across the rows of a dataset. -/
def colNums (ds : Dataset) (c : String) : List ℚ :=
  ds.rows.filterMap (fun r => toNum (getVal r c))

/-- Modelled from the spec: execute one KPISpec against a Dataset (spec
section 4.5).  Every referenced column must exist, else the KPI is skipped
(result none).  count counts rows when no column is named, and non-null
values of the named column otherwise; sum/average/min/max aggregate the
numeric-coercible values of the first named column. -/
def runKPI (ds : Dataset) (k : KPISpec) : Option ℚ :=
  if k.columns_needed.all (fun c => ds.columns.contains c) then
    match k.calculation, k.columns_needed with
    | Calc.count, [] => some ((ds.rows.length : ℚ))
    | Calc.count, c :: _ =>
        some (((ds.rows.filter (fun r => !(getVal r c == Value.null))).length : ℚ))
    | _, [] => none
    | cl, c :: _ => aggNums cl (colNums ds c)
  else none

/-- Modelled from the spec: the KPIResult of a run — KPIs that were skipped
(missing column) or unavailable (calculation error) are excluded from the
mapping (spec sections 4.5 and 8). -/
def executeKPIs (ds : Dataset) (plan : DashboardPlan) : List (String × ℚ) :=
  plan.kpis.filterMap (fun k => (runKPI ds k).map (fun v => (k.name, v)))

/-- One point of a ChartResult data series (spec section 3 "ChartResult"). -/
structure ChartPoint where
  label : String
  value : ℚ
deriving DecidableEq, Repr

/-- Modelled from the spec: a computed chart (spec section 3 "ChartResult"). -/
structure ChartResult where
  title : String
  chart_type : ChartType
  description : String
  data : List ChartPoint
deriving DecidableEq, Repr

/-- Display label of a grouping key value. -/
def renderValue : Value → String
  | Value.num q => toString q
  | Value.str s => s
  | Value.null => ""

/-- Byte-wise ordering of character lists, the model of chronological order
on ISO-formatted temporal labels. -/
def strLeAux : List Char → List Char → Bool
  | [], _ => true
  | _ :: _, [] => false
  | a :: as, b :: bs =>
    if a.toNat < b.toNat then true
    else if b.toNat < a.toNat then false
    else strLeAux as bs

/-- String ordering used to put temporal chart labels in chronological
order. -/
def strLe (s t : String) : Bool := strLeAux s.data t.data

/-- Chronological ordering of chart points by label. -/
def ascLabel (p q : ChartPoint) : Prop := strLe p.label q.label = true

instance : DecidableRel ascLabel :=
  fun p q => inferInstanceAs (Decidable (strLe p.label q.label = true))

/-- Descending ordering of chart points by value (top-N semantics of spec
section 4.5). -/
def valDesc (p q : ChartPoint) : Prop := q.value ≤ p.value

instance : DecidableRel valDesc :=
  fun p q => inferInstanceAs (Decidable (q.value ≤ p.value))

instance : IsTotal ChartPoint valDesc := ⟨fun a b => le_total b.value a.value⟩

instance : IsTrans ChartPoint valDesc := ⟨fun _ _ _ h1 h2 => le_trans h2 h1⟩

/-- Sort chart points chronologically by label. -/
def sortChron (l : List ChartPoint) : List ChartPoint := List.insertionSort ascLabel l

/-- Sort chart points by descending value. -/
def sortDesc (l : List ChartPoint) : List ChartPoint := List.insertionSort valDesc l

/-- The distinct values of the grouping column, i.e. the partition keys of a
grouped chart (spec section 4.5). -/
def groupKeys (ds : Dataset) (g : String) : List Value :=
  (ds.rows.map (fun r => getVal r g)).dedup

/-- The rows of the partition with grouping-column value k. -/
def groupRows (ds : Dataset) (g : String) (k : Value) : List Row :=
  ds.rows.filter (fun r => getVal r g == k)

/-- Modelled from the spec: aggregate the y column over one partition; count
counts the partition's rows, the other calculations aggregate the
numeric-coercible y values (spec section 4.5). -/
def chartAgg (c : Calc) (rows : List Row) (y : String) : Option ℚ :=
  match c with
  | Calc.count => some ((rows.length : ℚ))
  | c2 => aggNums c2 (rows.filterMap (fun r => toNum (getVal r y)))

/-- One candidate point per distinct group value; a partition whose aggregate
is unavailable yields none. -/
def rawGroupPoints (ds : Dataset) (g : String) (y : String) (agg : Calc) :
    List (Option ChartPoint) :=
  (groupKeys ds g).map
    (fun k => (chartAgg agg (groupRows ds g k) y).map
      (fun v => ChartPoint.mk (renderValue k) v))

/-- Modelled from the spec: the points of a grouped chart — one point per
distinct group value; any calculation error degrades the whole chart to an
empty series (spec section 4.5, calculation-error degradation). -/
def groupedPoints (ds : Dataset) (g : String) (y : String) (agg : Calc) :
    List ChartPoint :=
  if (rawGroupPoints ds g y agg).all Option.isSome then
    (rawGroupPoints ds g y agg).reduceOption
  else []

/-- Whether a chart type is capped to the ten highest-value groups (spec
section 4.5). -/
def isBarOrPie : ChartType → Bool
  | ChartType.bar => true
  | ChartType.pie => true
  | _ => false

/-- Modelled from the spec: points of an ungrouped chart — each row is its
own point, labelled by x_axis (or row index if absent); a non-numeric y cell
degrades the series to empty (spec section 4.5). -/
def ungroupedData (ds : Dataset) (cs : ChartSpec) : List ChartPoint :=
  if (ds.rows.map (fun r => toNum (getVal r cs.y_axis))).all Option.isSome then
    (ds.rows.enum.filterMap
      (fun p => (toNum (getVal p.2 cs.y_axis)).map
        (fun v => ChartPoint.mk
          (match cs.x_axis with
           | some x => renderValue (getVal p.2 x)
           | none => toString p.1) v)))
  else []

/-- Modelled from the spec: the ordered data series of a chart (spec section
4.5): grouped points in chronological order when grouping by the primary
temporal column, otherwise in descending value order, capped to the ten
highest-value groups for bar/pie charts. -/
def chartData (ds : Dataset) (temporal : Option String) (cs : ChartSpec) :
    List ChartPoint :=
  match cs.grouping with
  | some g =>
      let pts := groupedPoints ds g cs.y_axis cs.aggregation
      if temporal == some g then sortChron pts
      else if isBarOrPie cs.chart_type then (sortDesc pts).take 10
      else sortDesc pts
  | none => ungroupedData ds cs

/-- Existence of an optional column reference. -/
def optColExists (ds : Dataset) : Option String → Bool
  | none => true
  | some c => ds.columns.contains c

/-- Modelled from the spec: execute one ChartSpec against a Dataset (spec
section 4.5): verify y_axis (and x_axis/grouping when present) exist as
columns, else skip the chart; otherwise emit the computed data series. -/
def executeChart (ds : Dataset) (temporal : Option String) (cs : ChartSpec) :
    Option ChartResult :=
  if ds.columns.contains cs.y_axis && optColExists ds cs.x_axis
      && optColExists ds cs.grouping then
    some (ChartResult.mk cs.title cs.chart_type cs.description
      (chartData ds temporal cs))
  else none

/-- Modelled from the spec: execute every chart of a plan, skipping invalid
ones (spec section 4.5). -/
def executeCharts (ds : Dataset) (temporal : Option String)
    (plan : DashboardPlan) : List ChartResult :=
  plan.charts.filterMap (executeChart ds temporal)

/-- Modelled from the spec: per-column role classification (spec section 3
"ColumnInterpretation"). -/
inductive Role where
  | dimension
  | measure
deriving DecidableEq, Repr

/-- Modelled from the spec: semantic metadata of one column (spec section 3). -/
structure ColumnInterpretation where
  meaning : String
  role : Role
  category : String
deriving DecidableEq, Repr

/-- Modelled from the spec: a Schema Interpretation — per-column metadata plus
the optional primary temporal column and the ordered key metrics (spec
section 3). -/
structure SchemaInterpretation where
  columns : List (String × ColumnInterpretation)
  primaryTemporal : Option String
  keyMetrics : List String
deriving DecidableEq, Repr

/-- Modelled from the spec: per-numeric-column statistics of a Profile (spec
section 3 "Profile"). -/
structure ColStats where
  minVal : ℚ
  maxVal : ℚ
  mean : ℚ
  median : ℚ
deriving DecidableEq, Repr

/-- Modelled from the spec: the structural digest of a Dataset — ordered
column names, statistics for the uniformly numeric columns, and a small row
sample (spec sections 3 and 4.1). -/
structure Profile where
  columns : List String
  stats : List (String × ColStats)
  sampleRows : List Row
deriving DecidableEq

/-- Ascending ordering of rationals used when computing a median. -/
def ratAsc (a b : ℚ) : Prop := a ≤ b

instance : DecidableRel ratAsc := fun a b => inferInstanceAs (Decidable (a ≤ b))

/-- Modelled from the spec: statistics of a nonempty numeric column (min,
max, mean, median — spec section 3 "Profile"). -/
def statsOf (x : ℚ) (xs : List ℚ) : ColStats :=
  let l := x :: xs
  let sorted := List.insertionSort ratAsc l
  let n := l.length
  { minVal := xs.foldl (fun a b => if a ≤ b then a else b) x
    maxVal := xs.foldl (fun a b => if a ≤ b then b else a) x
    mean := ratSum l / (n : ℚ)
    median :=
      if n % 2 = 1 then sorted.getD (n / 2) 0
      else (sorted.getD (n / 2 - 1) 0 + sorted.getD (n / 2) 0) / 2 }

/-- Whether every non-null cell of column c is numeric-coercible and at least
one is: only such columns receive statistics (spec section 4.1). -/
def uniformlyNumeric (ds : Dataset) (c : String) : Bool :=
  (ds.rows.all (fun r => match getVal r c with
    | Value.null => true
    | Value.num _ => true
    | Value.str _ => false))
  && !(colNums ds c).isEmpty

/-- Modelled from the spec: the Profiler — a pure digest of the Dataset with
statistics only for the uniformly numeric columns (spec section 4.1). -/
def profileOf (ds : Dataset) : Profile :=
  { columns := ds.columns
    stats := ds.columns.filterMap (fun c =>
      if uniformlyNumeric ds c then
        match colNums ds c with
        | [] => none
        | x :: xs => some (c, statsOf x xs)
      else none)
    sampleRows := ds.rows.take 5 }

/-- Whether one character list occurs inside another. -/
def hasSub (needle hay : List Char) : Bool :=
  needle.isPrefixOf hay ||
    match hay with
    | [] => false
    | _ :: t => hasSub needle t

/-- Whether a column name looks temporal (spec section 4.3: the first column
whose name or sampled values look like a date). -/
def dateLikeName (c : String) : Bool :=
  hasSub "date".data (c.map Char.toLower).data
    || hasSub "time".data (c.map Char.toLower).data
    || hasSub "day".data (c.map Char.toLower).data

/-- Whether a sampled cell value looks like an ISO date. -/
def dateLikeValue : Value → Bool
  | Value.str s =>
      s.data.length == 10 && s.data.getD 4 ' ' == '-' && s.data.getD 7 ' ' == '-'
  | _ => false

/-- Ordering of profiled columns by descending numeric range, used to pick
the key metrics (spec section 4.3). -/
def rangeDesc (a b : String × ColStats) : Prop :=
  b.2.maxVal - b.2.minVal ≤ a.2.maxVal - a.2.minVal

instance : DecidableRel rangeDesc :=
  fun a b => inferInstanceAs
    (Decidable (b.2.maxVal - b.2.minVal ≤ a.2.maxVal - a.2.minVal))

/-- Modelled from the spec: the heuristic fallback interpretation (spec
section 4.3): profiled-numeric columns are measures of category metric, the
rest are dimensions of category identifier; the primary temporal column is
the first column whose name or sampled values look like a date; the key
metrics are the up to five measures with the widest numeric range. -/
def heuristicInterp (p : Profile) : SchemaInterpretation :=
  let numeric := p.stats.map Prod.fst
  { columns := p.columns.map (fun c =>
      (c, if numeric.contains c then
            ColumnInterpretation.mk "metric" Role.measure "metric"
          else
            ColumnInterpretation.mk "identifier" Role.dimension "identifier"))
    primaryTemporal := p.columns.find? (fun c =>
      dateLikeName c || p.sampleRows.any (fun r => dateLikeValue (getVal r c)))
    keyMetrics := ((List.insertionSort rangeDesc p.stats).map Prod.fst).take 5 }

/-- Modelled from the spec: outcome of the three Reasoning Client calls of
one invocation — none represents ReasoningUnavailable or unparsable output,
some the strictly parsed structure (spec sections 4.2-4.4 and 4.6). -/
structure Oracle where
  interp : Option SchemaInterpretation
  design : Option DashboardPlan
  recs : Option (List String)

/-- Modelled from the spec: the Schema Interpreter stage — strict parse of
the reasoning output, interpretations for unknown columns ignored, heuristic
fallback on failure (spec sections 3 and 4.3). -/
def interpretSchema (p : Profile) (o : Option SchemaInterpretation) :
    SchemaInterpretation :=
  match o with
  | some i => { i with columns := i.columns.filter (fun pr => p.columns.contains pr.1) }
  | none => heuristicInterp p

/-- Grouping column of the default chart: the primary temporal column if one
exists, otherwise the first dimension column (spec section 4.4). -/
def defaultGrouping (i : SchemaInterpretation) : Option String :=
  match i.primaryTemporal with
  | some t => some t
  | none =>
      (i.columns.find? (fun pr =>
        match pr.2.role with
        | Role.dimension => true
        | Role.measure => false)).map Prod.fst

/-- Modelled from the spec: the default Dashboard Plan used when plan design
fails — one Total Records count KPI and one bar chart counting rows grouped
by the default grouping column (spec section 4.4). -/
def defaultPlan (i : SchemaInterpretation) : DashboardPlan :=
  { kpis := [KPISpec.mk "Total Records" "Total number of records" Calc.count [] KPIFormat.number]
    charts := [ChartSpec.mk "Record Count" ChartType.bar "Count of records by group"
      (defaultGrouping i) ((defaultGrouping i).getD "") (defaultGrouping i) Calc.count] }

/-- Modelled from the spec: the Plan Designer stage — the strictly parsed
reasoning output, or the default plan when the call fails or its output is
unparsable (spec section 4.4). -/
def designPlan (i : SchemaInterpretation) (o : Option DashboardPlan) : DashboardPlan :=
  match o with
  | some plan => plan
  | none => defaultPlan i

/-- Modelled from the spec: the fixed generic channel-appropriate fallback
recommendations (spec section 4.6). -/
def fallbackRecs (channel : String) : List String :=
  ["Review your " ++ channel ++ " metrics regularly and track trends over time.",
   "Focus on the segments that perform best and replicate what works.",
   "Keep data collection consistent so future analyses stay comparable."]

/-- Modelled from the spec: the Recommendation Generator stage — the parsed
reasoning output, or the fixed fallback list on failure or on an empty
response (spec section 4.6). -/
def recommendStage (channel : String) (o : Option (List String)) : List String :=
  match o with
  | some rs => if rs.isEmpty then fallbackRecs channel else rs
  | none => fallbackRecs channel

/-- Modelled from the spec: the terminal aggregate artifact of one pipeline
invocation (spec section 3 "AnalysisArtifact"). -/
structure AnalysisArtifact where
  interpretation : SchemaInterpretation
  plan : DashboardPlan
  kpis : List (String × ℚ)
  charts : List ChartResult
  recommendations : List String
  success : Bool
  message : String

/-- Modelled from the spec: the Pipeline Orchestrator (spec section 4.7).
The input is none exactly when the Dataset could not be parsed/loaded (the
one fatal condition, which also covers a table with zero usable columns);
every other stage failure is absorbed by that stage's fallback and the run
always completes with success true. -/
def runPipeline (input : Option Dataset) (o : Oracle) (channel : String) :
    AnalysisArtifact :=
  match input with
  | none =>
      { interpretation := SchemaInterpretation.mk [] none []
        plan := DashboardPlan.mk [] []
        kpis := []
        charts := []
        recommendations := fallbackRecs channel
        success := false
        message := "Dataset could not be parsed" }
  | some ds =>
      let p := profileOf ds
      let i := interpretSchema p o.interp
      let plan := designPlan i o.design
      { interpretation := i
        plan := plan
        kpis := executeKPIs ds plan
        charts := executeCharts ds i.primaryTemporal plan
        recommendations := recommendStage channel o.recs
        success := true
        message := "Analysis completed" }

/-- Truncation of a rational toward zero, the rounding of the JavaScript
remainder operator. -/
def ratTrunc (q : ℚ) : ℤ := if 0 ≤ q then ⌊q⌋ else ⌈q⌉

/-- The JavaScript remainder a % b (sign follows the dividend). -/
def jsRem (a b : ℚ) : ℚ := a - b * ((ratTrunc (a / b) : ℤ) : ℚ)

/-- Rounding of v to two decimal places, scaled by 100 (half away from
zero), the arithmetic behind toFixed(2) and the locale renderings of
LinkedInTab.tsx. -/
def round2 (v : ℚ) : ℤ := if 0 ≤ v then ⌊v * 100 + 1 / 2⌋ else -⌊-(v * 100) + 1 / 2⌋

/-- Two-digit zero-padded rendering of a fraction part below 100. -/
def pad2 (n : ℕ) : String := (if n < 10 then "0" else "") ++ toString n

/-- Digits of a natural number in least-significant-first order with a comma
inserted after every three digits. -/
def commaRev : List Char → ℕ → List Char
  | [], _ => []
  | c :: cs, i =>
      if 0 < i && i % 3 == 0 then ',' :: c :: commaRev cs (i + 1)
      else c :: commaRev cs (i + 1)

/-- Thousands-separated rendering of a natural number, the model of the
locale grouping of toLocaleString. -/
def withCommas (n : ℕ) : String :=
  String.mk ((commaRev (toString n).data.reverse 0).reverse)

/-- Rendering of value.toFixed(2): sign, integer part, dot, two fraction
digits (LinkedInTab.tsx formatKPIValue, percentage and small-number
branches). -/
def toFixed2 (v : ℚ) : String :=
  let n := round2 v
  (if n < 0 then "-" else "") ++ toString (n.natAbs / 100) ++ "." ++ pad2 (n.natAbs % 100)

/-- Rendering of value.toLocaleString(undefined, maximumFractionDigits 2):
thousands-separated integer part and up to two fraction digits without
trailing zeros (LinkedInTab.tsx formatKPIValue, number branch). -/
def localeNumber (v : ℚ) : String :=
  let n := round2 v
  let ip := n.natAbs / 100
  let fr := n.natAbs % 100
  (if n < 0 then "-" else "") ++ withCommas ip ++
    (if fr = 0 then ""
     else if fr % 10 = 0 then "." ++ toString (fr / 10)
     else "." ++ pad2 fr)

/-- Rendering of value.toLocaleString(undefined, minimumFractionDigits 2,
maximumFractionDigits 2): thousands-separated integer part and exactly two
fraction digits (LinkedInTab.tsx formatKPIValue, currency branch). -/
def localeFixed2 (v : ℚ) : String :=
  let n := round2 v
  (if n < 0 then "-" else "") ++ withCommas (n.natAbs / 100) ++ "." ++ pad2 (n.natAbs % 100)

/-- The formatKPIValue helper of LinkedInTab.tsx: a switch on the format
string where the number case and the default case share one branch. -/
def formatKPIValue (value : ℚ) (format : String) : String :=
  if format = "percentage" then toFixed2 value ++ "%"
  else if format = "currency" then "$" ++ localeFixed2 value
  else if format = "duration" then
    toString ⌊value / 60⌋ ++ "m " ++ toString ⌊jsRem value 60⌋ ++ "s"
  else if 1000 ≤ value then localeNumber value
  else toFixed2 value

/-- One entry of the WordCloud input (WordCloud component, WordData). -/
structure WordData where
  text : String
  value : ℚ
deriving DecidableEq, Repr

/-- Descending ordering of words by value (WordCloud sortedWords). -/
def wordDesc (a b : WordData) : Prop := b.value ≤ a.value

instance : DecidableRel wordDesc :=
  fun a b => inferInstanceAs (Decidable (b.value ≤ a.value))

/-- The sorted word list of the WordCloud component. -/
def sortedWords (ws : List WordData) : List WordData :=
  List.insertionSort wordDesc ws

/-- Math.max over the word values (WordCloud maxValue); 0 on the empty list,
which the component never renders meaningfully. -/
def maxWordValue : List WordData → ℚ
  | [] => 0
  | w :: ws => ws.foldl (fun m x => max m x.value) w.value

/-- Math.min over the word values (WordCloud minValue). -/
def minWordValue : List WordData → ℚ
  | [] => 0
  | w :: ws => ws.foldl (fun m x => min m x.value) w.value

/-- The getFontSize helper of the WordCloud component: 14 plus the min-max
normalized value scaled into the 14-48 range; the denominator is the raw
difference maxValue - minValue, with no guard against zero. -/
def getFontSize (ws : List WordData) (value : ℚ) : ℚ :=
  let minSize : ℚ := 14
  let maxSize : ℚ := 48
  let normalized := (value - minWordValue ws) / (maxWordValue ws - minWordValue ws)
  minSize + normalized * (maxSize - minSize)

/-- The three-row date/clicks Dataset of the spec's section 8 scenarios. -/
def scenarioDS : Dataset :=
  { columns := ["date", "clicks"]
    rows :=
      [[("date", Value.str "2024-01-01"), ("clicks", Value.num 150)],
       [("date", Value.str "2024-01-02"), ("clicks", Value.num 175)],
       [("date", Value.str "2024-01-03"), ("clicks", Value.num 160)]] }

/-- The Total Clicks sum KPI of the spec's section 8 scenario. -/
def kpiTotalClicks : KPISpec :=
  { name := "Total Clicks"
    description := "Sum of clicks"
    calculation := Calc.sum
    columns_needed := ["clicks"]
    format := KPIFormat.number }

/-- The Clicks Over Time line chart of the spec's section 8 scenario. -/
def chartClicksOverTime : ChartSpec :=
  { title := "Clicks Over Time"
    chart_type := ChartType.line
    description := "Trend of clicks by date"
    x_axis := some "date"
    y_axis := "clicks"
    grouping := some "date"
    aggregation := Calc.sum }

/-- A small Dataset without a revenue column, used to exercise the
missing-column skip of the executor. -/
def dsNoRevenue : Dataset :=
  { columns := ["date", "clicks"]
    rows :=
      [[("date", Value.str "2024-02-01"), ("clicks", Value.num 12)],
       [("date", Value.str "2024-02-02"), ("clicks", Value.num 7)]] }

/-- A KPI referencing the absent revenue column. -/
def kpiRevenue : KPISpec :=
  { name := "Total Revenue"
    description := "Sum of revenue"
    calculation := Calc.sum
    columns_needed := ["revenue"]
    format := KPIFormat.currency }

/-- A plan holding the revenue KPI next to a valid clicks KPI. -/
def planWithRevenue : DashboardPlan :=
  { kpis :=
      [kpiRevenue,
       KPISpec.mk "Total Clicks" "Sum of clicks" Calc.sum ["clicks"] KPIFormat.number]
    charts := [] }

/-- A Dataset with one null clicks cell, separating the row count from the
non-null count. -/
def dsWithNull : Dataset :=
  { columns := ["date", "clicks"]
    rows :=
      [[("date", Value.str "2024-03-01"), ("clicks", Value.num 20)],
       [("date", Value.str "2024-03-02"), ("clicks", Value.null)],
       [("date", Value.str "2024-03-03"), ("clicks", Value.num 31)]] }

/-- A count KPI with no columns needed. -/
def kpiRowCount : KPISpec :=
  { name := "Total Records"
    description := "Row count"
    calculation := Calc.count
    columns_needed := []
    format := KPIFormat.number }

/-- A count KPI over the clicks column. -/
def kpiClicksCount : KPISpec :=
  { name := "Click Entries"
    description := "Non-null clicks"
    calculation := Calc.count
    columns_needed := ["clicks"]
    format := KPIFormat.number }

/-- A keyword/clicks Dataset partitioning into twelve distinct keyword
groups, used to exercise the top-ten cap of bar charts. -/
def dsManyGroups : Dataset :=
  { columns := ["keyword", "clicks"]
    rows :=
      [[("keyword", Value.str "k01"), ("clicks", Value.num 5)],
       [("keyword", Value.str "k02"), ("clicks", Value.num 12)],
       [("keyword", Value.str "k03"), ("clicks", Value.num 3)],
       [("keyword", Value.str "k04"), ("clicks", Value.num 40)],
       [("keyword", Value.str "k05"), ("clicks", Value.num 8)],
       [("keyword", Value.str "k06"), ("clicks", Value.num 21)],
       [("keyword", Value.str "k07"), ("clicks", Value.num 17)],
       [("keyword", Value.str "k08"), ("clicks", Value.num 2)],
       [("keyword", Value.str "k09"), ("clicks", Value.num 33)],
       [("keyword", Value.str "k10"), ("clicks", Value.num 9)],
       [("keyword", Value.str "k11"), ("clicks", Value.num 14)],
       [("keyword", Value.str "k12"), ("clicks", Value.num 27)]] }

/-- A bar chart of clicks summed per keyword, grouped by a non-temporal
column. -/
def chartTopKeywords : ChartSpec :=
  { title := "Top Keywords by Clicks"
    chart_type := ChartType.bar
    description := "Keywords with most clicks"
    x_axis := some "keyword"
    y_axis := "clicks"
    grouping := some "keyword"
    aggregation := Calc.sum }

/-- A two-word cloud input with distinct values. -/
def wordsPair : List WordData :=
  [WordData.mk "alpha" 1, WordData.mk "beta" 5]

/-- Claim C1: the orchestrator reports success false exactly when the input
Dataset could not be parsed/loaded; every other stage outcome — any
combination of Reasoning Client failures at the interpretation, design and
recommendation stages — still yields a completed run with success true. -/
theorem c1_success_false_iff_unparsable (input : Option Dataset) (o : Oracle)
    (ch : String) : (runPipeline input o ch).success = false ↔ input = none := by
  cases input <;> simp [runPipeline]

/-- Claim C2: a KPI whose columns_needed references a column absent from the
Dataset is skipped without aborting: its computation is unavailable, its name
is excluded from the KPIResult (KPI names being unique in a plan), and every
pipeline run over that Dataset still reports success. -/
theorem c2_missing_column_kpi_skipped (ds : Dataset) (plan : DashboardPlan)
    (k : KPISpec) (c : String) (hk : k ∈ plan.kpis) (hc : c ∈ k.columns_needed)
    (hmiss : c ∉ ds.columns)
    (huniq : ∀ k2 ∈ plan.kpis, k2.name = k.name → k2 = k) :
    runKPI ds k = none ∧
    k.name ∉ (executeKPIs ds plan).map Prod.fst ∧
    ∀ (o : Oracle) (ch : String), (runPipeline (some ds) o ch).success = true := by
  have hnone : runKPI ds k = none := by
    simp only [runKPI]
    simp
    intro hforall
    exact absurd (hforall c hc) hmiss
  refine ⟨hnone, ?_, fun o ch => rfl⟩
  intro hmem
  simp only [executeKPIs, List.mem_map, List.mem_filterMap] at hmem
  obtain ⟨⟨nm, v⟩, ⟨k2, hk2, hmap⟩, hfst⟩ := hmem
  rw [Option.map_eq_some'] at hmap
  obtain ⟨a, hrun, heq⟩ := hmap
  have h1 : k2.name = nm := by simpa using congrArg Prod.fst heq
  rw [huniq k2 hk2 (h1.trans hfst), hnone] at hrun
  exact Option.noConfusion hrun

/-- Witness for C2: the revenue KPI is skipped on the date/clicks Dataset and
the run still succeeds. -/
theorem c2_witness :
    runKPI dsNoRevenue kpiRevenue = none ∧
    kpiRevenue.name ∉ (executeKPIs dsNoRevenue planWithRevenue).map Prod.fst ∧
    ∀ (o : Oracle) (ch : String),
      (runPipeline (some dsNoRevenue) o ch).success = true :=
  c2_missing_column_kpi_skipped dsNoRevenue planWithRevenue kpiRevenue "revenue"
    (by decide) (by decide) (by decide) (by decide)

/-- Claim C3: a count KPI never fails the executor: with no columns needed it
counts the Dataset's rows, and with a named existing column it counts that
column's non-null values. -/
theorem c3_count_semantics (ds : Dataset) (k : KPISpec)
    (hcalc : k.calculation = Calc.count) :
    (k.columns_needed = [] → runKPI ds k = some ((ds.rows.length : ℚ))) ∧
    (∀ c, k.columns_needed = [c] → c ∈ ds.columns →
      runKPI ds k = some (((ds.rows.filter
        (fun r => !(getVal r c == Value.null))).length : ℚ))) := by
  constructor
  · intro h
    simp [runKPI, h, hcalc]
  · intro c h hmem
    simp [runKPI, h, hcalc, hmem]

/-- Witness for C3 on the Dataset with one null clicks cell: three rows, two
non-null click entries. -/
theorem c3_witness :
    runKPI dsWithNull kpiRowCount = some ((dsWithNull.rows.length : ℚ)) ∧
    runKPI dsWithNull kpiClicksCount = some (((dsWithNull.rows.filter
      (fun r => !(getVal r "clicks" == Value.null))).length : ℚ)) :=
  ⟨(c3_count_semantics dsWithNull kpiRowCount (by decide)).1 (by decide),
   (c3_count_semantics dsWithNull kpiClicksCount (by decide)).2 "clicks"
     (by decide) (by decide)⟩

/-- Claim C5: when the Reasoning Client fails or returns unparsable output at
the plan-design stage, the Plan Designer output is exactly the default plan:
one Total Records count KPI with format number and no columns needed, and one
bar chart counting rows grouped by the primary temporal column if one exists,
otherwise by the first dimension column.  designPlan is a pure function, so
the fallback is identical on every such run. -/
theorem c5_default_plan_on_failure (i : SchemaInterpretation) :
    designPlan i none =
      DashboardPlan.mk
        [KPISpec.mk "Total Records" "Total number of records" Calc.count []
          KPIFormat.number]
        [ChartSpec.mk "Record Count" ChartType.bar "Count of records by group"
          (match i.primaryTemporal with
           | some t => some t
           | none => (i.columns.find? (fun pr : String × ColumnInterpretation =>
               match pr.2.role with
               | Role.dimension => true
               | Role.measure => false)).map Prod.fst)
          ((match i.primaryTemporal with
            | some t => some t
            | none => (i.columns.find? (fun pr : String × ColumnInterpretation =>
                match pr.2.role with
                | Role.dimension => true
                | Role.measure => false)).map Prod.fst).getD "")
          (match i.primaryTemporal with
           | some t => some t
           | none => (i.columns.find? (fun pr : String × ColumnInterpretation =>
               match pr.2.role with
               | Role.dimension => true
               | Role.measure => false)).map Prod.fst)
          Calc.count] := rfl

/-- Claim C6: on every pipeline invocation and every Reasoning Client
outcome — success, failure, or an empty/unparsable response — the
recommendation list of the produced artifact is non-empty. -/
theorem c6_recommendations_never_empty (input : Option Dataset) (o : Oracle)
    (ch : String) : (runPipeline input o ch).recommendations ≠ [] := by
  obtain ⟨i, d, r⟩ := o
  cases input with
  | none => simp [runPipeline, fallbackRecs]
  | some ds =>
    cases r with
    | none => simp [runPipeline, recommendStage, fallbackRecs]
    | some rs =>
      cases rs with
      | nil => simp [runPipeline, recommendStage, fallbackRecs]
      | cons a as => simp [runPipeline, recommendStage]

/-- Claim C7: on the three-row date/clicks Dataset of the spec scenario, the
sum KPI over the clicks column computes the KPIResult value 485. -/
theorem c7_sum_kpi_485 :
    executeKPIs scenarioDS (DashboardPlan.mk [kpiTotalClicks] []) =
      [("Total Clicks", (485 : ℚ))] := by
  have h : runKPI scenarioDS kpiTotalClicks = some 485 := by
    norm_num [runKPI, scenarioDS, kpiTotalClicks, aggNums, colNums, ratSum,
      getVal, toNum]
  simp only [executeKPIs, List.filterMap_cons, List.filterMap_nil, h,
    Option.map_some']
  rfl

/-- Claim C8: on the same Dataset, the line chart grouped by the primary
temporal column date with sum aggregation of clicks yields exactly the three
points in chronological order. -/
theorem c8_line_chart_chronological :
    executeChart scenarioDS (some "date") chartClicksOverTime =
      some (ChartResult.mk "Clicks Over Time" ChartType.line
        "Trend of clicks by date"
        [ChartPoint.mk "2024-01-01" 150, ChartPoint.mk "2024-01-02" 175,
         ChartPoint.mk "2024-01-03" 160]) := by decide

/-- Claim C9: formatKPIValue always returns a string, and every format
outside percentage, currency and duration falls through to the shared
number/default branch: locale thousands rendering for values at least 1000,
two-decimal fixed rendering otherwise. -/
theorem c9_format_default_fallthrough (v : ℚ) (f : String)
    (h1 : f ≠ "percentage") (h2 : f ≠ "currency") (h3 : f ≠ "duration") :
    formatKPIValue v f = formatKPIValue v "number" ∧
    formatKPIValue v f = (if 1000 ≤ v then localeNumber v else toFixed2 v) := by
  have n1 : ("number" : String) ≠ "percentage" := by decide
  have n2 : ("number" : String) ≠ "currency" := by decide
  have n3 : ("number" : String) ≠ "duration" := by decide
  constructor <;> simp [formatKPIValue, h1, h2, h3, n1, n2, n3]

/-- Witness for C9 at value 5 and the unknown format string weird. -/
theorem c9_witness :
    formatKPIValue 5 "weird" = formatKPIValue 5 "number" ∧
    formatKPIValue 5 "weird" = (if (1000 : ℚ) ≤ 5 then localeNumber 5 else toFixed2 5) :=
  c9_format_default_fallthrough 5 "weird" (by decide) (by decide) (by decide)

/-- Initial value and members are below a foldl of max over word values. -/
theorem foldlMax_bounds (l : List WordData) (a : ℚ) :
    a ≤ l.foldl (fun m x => max m x.value) a ∧
    ∀ x ∈ l, x.value ≤ l.foldl (fun m x => max m x.value) a := by
  induction l generalizing a with
  | nil => simp
  | cons y l ih =>
    simp only [List.foldl_cons]
    refine ⟨le_trans (le_max_left a y.value) (ih (max a y.value)).1, ?_⟩
    intro x hx
    rcases List.mem_cons.mp hx with rfl | hx2
    · exact le_trans (le_max_right a x.value) (ih (max a x.value)).1
    · exact (ih (max a y.value)).2 x hx2

/-- Initial value and members are above a foldl of min over word values. -/
theorem foldlMin_bounds (l : List WordData) (a : ℚ) :
    l.foldl (fun m x => min m x.value) a ≤ a ∧
    ∀ x ∈ l, l.foldl (fun m x => min m x.value) a ≤ x.value := by
  induction l generalizing a with
  | nil => simp
  | cons y l ih =>
    simp only [List.foldl_cons]
    refine ⟨le_trans (ih (min a y.value)).1 (min_le_left a y.value), ?_⟩
    intro x hx
    rcases List.mem_cons.mp hx with rfl | hx2
    · exact le_trans (ih (min a x.value)).1 (min_le_right a x.value)
    · exact (ih (min a y.value)).2 x hx2

/-- A foldl of max over all-equal word values is constant. -/
theorem foldlMax_const (l : List WordData) (c : ℚ) (h : ∀ x ∈ l, x.value = c) :
    l.foldl (fun m x => max m x.value) c = c := by
  induction l with
  | nil => rfl
  | cons y l ih =>
    simp only [List.foldl_cons]
    rw [h y (List.mem_cons_self y l), max_self]
    exact ih (fun x hx => h x (List.mem_cons_of_mem y hx))

/-- A foldl of min over all-equal word values is constant. -/
theorem foldlMin_const (l : List WordData) (c : ℚ) (h : ∀ x ∈ l, x.value = c) :
    l.foldl (fun m x => min m x.value) c = c := by
  induction l with
  | nil => rfl
  | cons y l ih =>
    simp only [List.foldl_cons]
    rw [h y (List.mem_cons_self y l), min_self]
    exact ih (fun x hx => h x (List.mem_cons_of_mem y hx))

/-- Claim C10: on a non-empty word list with at least two distinct values,
every WordCloud font size stays within 14 to 48; on an all-equal list the
unguarded denominator maxValue minus minValue of getFontSize is zero. -/
theorem c10_wordcloud_font_bounds (ws : List WordData) (h : ws ≠ []) :
    ((∃ a ∈ ws, ∃ b ∈ ws, a.value ≠ b.value) →
      ∀ w ∈ ws, 14 ≤ getFontSize ws w.value ∧ getFontSize ws w.value ≤ 48) ∧
    ((∀ a ∈ ws, ∀ b ∈ ws, a.value = b.value) →
      maxWordValue ws - minWordValue ws = 0) := by
  cases ws with
  | nil => exact absurd rfl h
  | cons w0 ws' =>
    have hmax : ∀ x ∈ w0 :: ws', x.value ≤ maxWordValue (w0 :: ws') := by
      intro x hx
      rcases List.mem_cons.mp hx with rfl | hx2
      · exact (foldlMax_bounds ws' x.value).1
      · exact (foldlMax_bounds ws' w0.value).2 x hx2
    have hmin : ∀ x ∈ w0 :: ws', minWordValue (w0 :: ws') ≤ x.value := by
      intro x hx
      rcases List.mem_cons.mp hx with rfl | hx2
      · exact (foldlMin_bounds ws' x.value).1
      · exact (foldlMin_bounds ws' w0.value).2 x hx2
    constructor
    · rintro ⟨a, ha, b, hb, hab⟩ w hw
      have hlt : minWordValue (w0 :: ws') < maxWordValue (w0 :: ws') := by
        rcases lt_or_gt_of_ne hab with hl | hl
        · exact lt_of_le_of_lt (hmin a ha) (lt_of_lt_of_le hl (hmax b hb))
        · exact lt_of_le_of_lt (hmin b hb) (lt_of_lt_of_le hl (hmax a ha))
      have hd : 0 < maxWordValue (w0 :: ws') - minWordValue (w0 :: ws') :=
        sub_pos.mpr hlt
      have h0 : 0 ≤ w.value - minWordValue (w0 :: ws') :=
        sub_nonneg.mpr (hmin w hw)
      have h1 : w.value - minWordValue (w0 :: ws') ≤
          maxWordValue (w0 :: ws') - minWordValue (w0 :: ws') :=
        sub_le_sub_right (hmax w hw) _
      have hn0 : 0 ≤ (w.value - minWordValue (w0 :: ws')) /
          (maxWordValue (w0 :: ws') - minWordValue (w0 :: ws')) :=
        div_nonneg h0 hd.le
      have hn1 : (w.value - minWordValue (w0 :: ws')) /
          (maxWordValue (w0 :: ws') - minWordValue (w0 :: ws')) ≤ 1 :=
        (div_le_one hd).mpr h1
      constructor <;> simp only [getFontSize] <;> nlinarith [hn0, hn1]
    · intro hall
      have hc : ∀ x ∈ ws', x.value = w0.value := fun x hx =>
        hall x (List.mem_cons_of_mem w0 hx) w0 (List.mem_cons_self w0 ws')
      simp only [maxWordValue, minWordValue]
      rw [foldlMax_const ws' w0.value hc, foldlMin_const ws' w0.value hc, sub_self]

/-- Witness for C10 on the two-word cloud with values 1 and 5. -/
theorem c10_witness :
    14 ≤ getFontSize wordsPair 1 ∧ getFontSize wordsPair 1 ≤ 48 :=
  (c10_wordcloud_font_bounds wordsPair (by decide)).1 (by decide)
    (WordData.mk "alpha" 1) (by decide)

/-- Claim C4: a bar or pie chart grouped by a non-temporal column that
partitions the Dataset into more than ten distinct group values (each
partition aggregating to a defined value) produces exactly ten points, in
descending value order, and every omitted group value is bounded by every
kept one. -/
theorem c4_bar_pie_top_ten (ds : Dataset) (temporal : Option String)
    (cs : ChartSpec) (g : String)
    (hty : cs.chart_type = ChartType.bar ∨ cs.chart_type = ChartType.pie)
    (hg : cs.grouping = some g)
    (hy : ds.columns.contains cs.y_axis = true)
    (hx : optColExists ds cs.x_axis = true)
    (hgc : ds.columns.contains g = true)
    (hnt : temporal ≠ some g)
    (hdef : (rawGroupPoints ds g cs.y_axis cs.aggregation).all Option.isSome = true)
    (hcard : 10 < (groupKeys ds g).length) :
    ∃ res, executeChart ds temporal cs = some res ∧
      res.data.length = 10 ∧
      List.Pairwise valDesc res.data ∧
      ∀ p ∈ res.data, ∀ q ∈ groupedPoints ds g cs.y_axis cs.aggregation,
        q ∉ res.data → q.value ≤ p.value := by
  have hne : (temporal == some g) = false := by
    simp [hnt]
  have hdata : chartData ds temporal cs =
      (sortDesc (groupedPoints ds g cs.y_axis cs.aggregation)).take 10 := by
    rcases hty with h | h <;> simp [chartData, hg, hne, isBarOrPie, h]
  have hexec : executeChart ds temporal cs =
      some (ChartResult.mk cs.title cs.chart_type cs.description
        ((sortDesc (groupedPoints ds g cs.y_axis cs.aggregation)).take 10)) := by
    rw [executeChart, if_pos]
    · rw [hdata]
    · rw [hy, hx, hg]
      have hgc2 : g ∈ ds.columns := by simpa using hgc
      simp [optColExists, hgc2]
  have hforall : ∀ x ∈ rawGroupPoints ds g cs.y_axis cs.aggregation,
      Option.isSome x := by simpa using hdef
  have hptslen : (groupedPoints ds g cs.y_axis cs.aggregation).length =
      (groupKeys ds g).length := by
    rw [groupedPoints, if_pos hdef]
    rw [List.reduceOption_length_eq_iff.mpr hforall]
    simp [rawGroupPoints]
  have hslen : (sortDesc (groupedPoints ds g cs.y_axis cs.aggregation)).length =
      (groupedPoints ds g cs.y_axis cs.aggregation).length := by
    simp [sortDesc]
  have hsorted : List.Pairwise valDesc
      (sortDesc (groupedPoints ds g cs.y_axis cs.aggregation)) :=
    List.sorted_insertionSort valDesc _
  refine ⟨ChartResult.mk cs.title cs.chart_type cs.description
    ((sortDesc (groupedPoints ds g cs.y_axis cs.aggregation)).take 10),
    hexec, ?_, ?_, ?_⟩
  · simp only [List.length_take, hslen, hptslen]
    omega
  · exact hsorted.sublist (List.take_sublist 10 _)
  · intro p hp q hq hnq
    have hq2 : q ∈ sortDesc (groupedPoints ds g cs.y_axis cs.aggregation) := by
      simp [sortDesc, hq]
    have hsplit := List.take_append_drop 10
      (sortDesc (groupedPoints ds g cs.y_axis cs.aggregation))
    have hq3 : q ∈ (sortDesc (groupedPoints ds g cs.y_axis cs.aggregation)).drop 10 := by
      rcases List.mem_append.mp (by rw [hsplit]; exact hq2) with hcase | hcase
      · exact absurd hcase hnq
      · exact hcase
    have hpair := (List.pairwise_append.mp (by rw [hsplit]; exact hsorted)).2.2
    exact hpair p hp q hq3

/-- Witness for C4 on the twelve-keyword Dataset and the keyword bar chart. -/
theorem c4_witness :
    ∃ res, executeChart dsManyGroups none chartTopKeywords = some res ∧
      res.data.length = 10 ∧
      List.Pairwise valDesc res.data ∧
      ∀ p ∈ res.data,
        ∀ q ∈ groupedPoints dsManyGroups "keyword" "clicks" Calc.sum,
          q ∉ res.data → q.value ≤ p.value :=
  c4_bar_pie_top_ten dsManyGroups none chartTopKeywords "keyword"
    (Or.inl rfl) rfl (by decide) (by decide) (by decide) (by decide)
    (by decide) (by decide)
